import Mathlib

/-!
# Verification of the eshipz tracking summarizer

Shallow embedding of `src/main.py`. The fetched provider response is modelled
as an optional JSON-like value (`Option JValue`, with `none` standing for the
Absent outcome of `make_nws_request`). Python operations that can raise
(`dict.get` on a non-dict, subscripting, `len`, `.upper`) return
`Except String`, mirroring the `try`/`except` boundary of `get_tracking`.
-/

namespace Eshipz

/-- A JSON-like Python value, as produced by `response.json()`. -/
inductive JValue where
  | null
  | bool (b : Bool)
  | num (n : Int)
  | str (s : String)
  | arr (xs : List JValue)
  | obj (kvs : List (String × JValue))

/-- Python type name, used in the text of raised errors. -/
def typeName : JValue → String
  | .null => "NoneType"
  | .bool _ => "bool"
  | .num _ => "int"
  | .str _ => "str"
  | .arr _ => "list"
  | .obj _ => "dict"

mutual

/-- Python `repr` of a value (element strings quoted), as used by `str()` on containers. -/
def pyRepr : JValue → String
  | .null => "None"
  | .bool b => if b then "True" else "False"
  | .num n => toString n
  | .str s => "'" ++ s ++ "'"
  | .arr xs => "[" ++ pyReprList xs ++ "]"
  | .obj kvs => "\x7b" ++ pyReprObj kvs ++ "\x7d"

def pyReprList : List JValue → String
  | [] => ""
  | [x] => pyRepr x
  | x :: y :: xs => pyRepr x ++ ", " ++ pyReprList (y :: xs)

def pyReprObj : List (String × JValue) → String
  | [] => ""
  | [(k, v)] => "'" ++ k ++ "': " ++ pyRepr v
  | (k, v) :: kv :: kvs => "'" ++ k ++ "': " ++ pyRepr v ++ ", " ++ pyReprObj (kv :: kvs)

end

/-- Python `str()`, as performed by f-string interpolation. -/
def pyStr : JValue → String
  | .str s => s
  | v => pyRepr v

/-- Python truthiness (`if x:`). -/
def truthy : JValue → Bool
  | .null => false
  | .bool b => b
  | .num n => n != 0
  | .str s => s != ""
  | .arr xs => !xs.isEmpty
  | .obj kvs => !kvs.isEmpty

/-- First-match key lookup in a Python dict (modelled as an association list). -/
def lookupKey : List (String × JValue) → String → Option JValue
  | [], _ => none
  | (k', v) :: rest, k => if k' == k then some v else lookupKey rest k

/-- Python `x.get(key, default)`: raises `AttributeError` unless `x` is a dict. -/
def pyGet (v : JValue) (key : String) (dflt : JValue) : Except String JValue :=
  match v with
  | .obj kvs => .ok ((lookupKey kvs key).getD dflt)
  | w => .error ("'" ++ typeName w ++ "' object has no attribute 'get'")

/-- Python `x[0]`. -/
def pySubscript0 : JValue → Except String JValue
  | .arr [] => .error "list index out of range"
  | .arr (x :: _) => .ok x
  | .str s =>
    match s.data with
    | [] => .error "string index out of range"
    | c :: _ => .ok (.str (String.mk [c]))
  | .obj _ => .error "0"
  | v => .error ("'" ++ typeName v ++ "' object is not subscriptable")

/-- Python `len(x)`. -/
def pyLen : JValue → Except String Nat
  | .arr xs => .ok xs.length
  | .obj kvs => .ok kvs.length
  | .str s => .ok s.length
  | v => .error ("object of type '" ++ typeName v ++ "' has no len()")

/-- Python `x == "lit"` for a string literal on the right. -/
def pyEqStr (v : JValue) (s : String) : Bool :=
  match v with
  | .str t => t == s
  | _ => false

/-- Python `s.upper()`, character-wise upper-casing (ASCII as `Char.toUpper`). -/
def pyUpper (s : String) : String :=
  String.mk (s.data.map Char.toUpper)

/-- `_format_carrier` (src/main.py lines 35-37):
`return slug.upper() if slug else "Unknown Carrier"`. -/
def _format_carrier (slug : JValue) : Except String String :=
  if truthy slug then
    match slug with
    | .str s => .ok (pyUpper s)
    | v => .error ("'" ++ typeName v ++ "' object has no attribute 'upper'")
  else
    .ok "Unknown Carrier"

/-- The status dispatch of `_create_summary` (src/main.py lines 54-102), on the
already-extracted field values. After the field extraction at lines 43-52 the
Python code only performs truthiness tests, f-string formatting and
concatenation, so this part is total. -/
def summaryFromFields (tracking_num : JValue) (carrier : String)
    (status location remark delivery_date eta : JValue) : String :=
  if pyEqStr status "Delivered" then
    let summary := " Delivered via " ++ carrier
    let summary := if truthy delivery_date then summary ++ (" on " ++ pyStr delivery_date) else summary
    let summary := if truthy location then summary ++ (" at " ++ pyStr location) else summary
    summary
  else if pyEqStr status "OutForDelivery" then
    let summary := " Out for delivery via " ++ carrier
    if truthy location then summary ++ (" from " ++ pyStr location) else summary
  else if pyEqStr status "InTransit" then
    let summary := "In transit via " ++ carrier
    let summary := if truthy location then summary ++ (", currently in " ++ pyStr location) else summary
    let summary := if truthy remark then summary ++ (" - " ++ pyStr remark) else summary
    if truthy eta then summary ++ ("\n   Expected delivery: " ++ pyStr eta) else summary
  else if pyEqStr status "Exception" then
    let summary := "Exception via " ++ carrier
    let summary := if truthy location then summary ++ (" at " ++ pyStr location) else summary
    if truthy remark then summary ++ (" - " ++ pyStr remark) else summary
  else if pyEqStr status "PickedUp" then
    let summary := "Picked up via " ++ carrier
    if truthy location then summary ++ (" from " ++ pyStr location) else summary
  else if pyEqStr status "InfoReceived" then
    "Shipment information received by " ++ carrier
  else
    let summary :=
      if truthy status then pyStr status ++ (" via " ++ carrier)
      else "Tracking " ++ (pyStr tracking_num ++ (" via " ++ carrier))
    if truthy location && truthy remark then
      summary ++ (" - " ++ (pyStr remark ++ (" (" ++ (pyStr location ++ ")"))))
    else if truthy remark then
      summary ++ (" - " ++ pyStr remark)
    else
      summary

/-- `_create_summary` (src/main.py lines 40-102): field extraction at lines
43-52 (each step may raise, e.g. when the shipment is not a dict), then the
status dispatch. -/
def _create_summary (shipment : JValue) : Except String String := do
  let tracking_num ← pyGet shipment "tracking_number" (.str "Unknown")
  let slug ← pyGet shipment "slug" .null
  let carrier ← _format_carrier slug
  let status ← pyGet shipment "tag" .null
  let checkpoints ← pyGet shipment "checkpoints" (.arr [])
  let latest ← if truthy checkpoints then pySubscript0 checkpoints else pure (JValue.obj [])
  let location ← pyGet latest "city" (.str "")
  let remark ← pyGet latest "remark" (.str "")
  let delivery_date ← pyGet shipment "delivery_date" .null
  let eta ← pyGet shipment "expected_delivery_date" .null
  return summaryFromFields tracking_num carrier status location remark delivery_date eta

/-- The body of the `try` block of `get_tracking` (src/main.py lines 113-134):
first-shipment extraction, summary, then the post-processing that appends the
"Last updated" and "Total events" lines. -/
def process_tracking (data : JValue) : Except String String :=
  match data with
  | .arr (shipment :: restShipments) => do
    let _ := restShipments
    let summary ← _create_summary shipment
    let checkpoints ← pyGet shipment "checkpoints" (.arr [])
    let summary ←
      if truthy checkpoints then do
        let first ← pySubscript0 checkpoints
        let latest_time ← pyGet first "date" (.str "")
        if truthy latest_time then pure (summary ++ ("\n   Last updated: " ++ pyStr latest_time))
        else pure summary
      else pure summary
    let event_count ← pyLen checkpoints
    let summary :=
      if event_count > 0 then summary ++ ("\n   Total events: " ++ toString event_count)
      else summary
    return summary
  | _ => .ok "No shipment data found in the response."

/-- `get_tracking` (src/main.py lines 105-137). The fetch result is the input:
`none` is the Absent outcome of `make_nws_request`; `if not data:` also fires
on any falsy parsed body. Errors raised inside the `try` block are converted
to the "Error processing tracking data" text. -/
def get_tracking (data : Option JValue) : String :=
  match data with
  | none => " Tracking information could not be retrieved. Please verify the tracking number."
  | some v =>
    if !truthy v then
      " Tracking information could not be retrieved. Please verify the tracking number."
    else
      match process_tracking v with
      | .ok s => s
      | .error e => "Error processing tracking data: " ++ e

/-- `isinstance(data, list)` (src/main.py line 114). -/
def isList : JValue → Bool
  | .arr _ => true
  | _ => false

/-! ## Well-formed shipment records

The spec's data model (§3): a Shipment with optional string fields and an
ordered checkpoint sequence. `mkShipment`/`mkCheckpoint` build the JSON value
the provider would return; an absent field means the key is missing from the
dict (`Option.none`), which is what `dict.get` defaults guard against. -/

/-- A checkpoint record as consumed by the core: `city`, `remark`, `date`. -/
structure Checkpoint where
  city : Option String
  remark : Option String
  date : Option String

/-- A shipment record as consumed by the core. -/
structure Shipment where
  tracking_number : Option String
  slug : Option String
  tag : Option String
  delivery_date : Option String
  expected_delivery_date : Option String
  checkpoints : Option (List Checkpoint)

/-- One dict entry, present only when the field is. -/
def optEntry (k : String) : Option String → List (String × JValue)
  | none => []
  | some v => [(k, .str v)]

/-- The JSON dict for a checkpoint. -/
def mkCheckpoint (c : Checkpoint) : JValue :=
  .obj (optEntry "city" c.city ++ optEntry "remark" c.remark ++ optEntry "date" c.date)

/-- The JSON dict for a shipment. -/
def mkShipment (s : Shipment) : JValue :=
  .obj (optEntry "tracking_number" s.tracking_number ++ optEntry "slug" s.slug
    ++ optEntry "tag" s.tag ++ optEntry "delivery_date" s.delivery_date
    ++ optEntry "expected_delivery_date" s.expected_delivery_date
    ++ (match s.checkpoints with
        | none => []
        | some cs => [("checkpoints", .arr (cs.map mkCheckpoint))]))

/-- The JSON value of an optional string field read without a default. -/
def jOfOptStr : Option String → JValue
  | none => .null
  | some v => .str v

/-- Closed form of `_format_carrier` on an optional string slug. -/
def carrierOf : Option String → String
  | none => "Unknown Carrier"
  | some c => if c = "" then "Unknown Carrier" else pyUpper c

/-- The latest checkpoint of a shipment (index 0, if the sequence is non-empty). -/
def latestOf (s : Shipment) : Option Checkpoint :=
  (s.checkpoints.getD []).head?

/-- Closed form of `_create_summary` on a well-formed shipment record. -/
def summaryModel (s : Shipment) : String :=
  summaryFromFields (.str (s.tracking_number.getD "Unknown")) (carrierOf s.slug)
    (jOfOptStr s.tag)
    (.str (((latestOf s).bind Checkpoint.city).getD ""))
    (.str (((latestOf s).bind Checkpoint.remark).getD ""))
    (jOfOptStr s.delivery_date) (jOfOptStr s.expected_delivery_date)

/-- The "Last updated" line appended by `get_tracking` lines 123-127, as a
function of the latest checkpoint. -/
def lastUpdatedLine : Option Checkpoint → String
  | some c =>
    match c.date with
    | some d => if d = "" then "" else "\n   Last updated: " ++ d
    | none => ""
  | none => ""

/-- The "Total events" line appended by `get_tracking` lines 130-132, as a
function of the checkpoint count. -/
def totalEventsLine (n : Nat) : String :=
  if n > 0 then "\n   Total events: " ++ toString n else ""

/-- The six recognized status tags (src/main.py lines 55-94). -/
def knownTags : List String :=
  ["Delivered", "OutForDelivery", "InTransit", "Exception", "PickedUp", "InfoReceived"]

/-- `s` begins with `pre`, character-wise. -/
def beginsWith (s pre : String) : Bool :=
  pre.data.isPrefixOf s.data

/-- The shipment of the spec's Delivered example (§8):
`{statusTag:"Delivered", slug:"ups", deliveryDate:"2024-01-05",
checkpoints:[{city:"Austin", date:"2024-01-05T10:00"}]}`. -/
def shipmentC5 : JValue :=
  .obj [("tag", .str "Delivered"), ("slug", .str "ups"), ("delivery_date", .str "2024-01-05"),
        ("checkpoints", .arr [.obj [("city", .str "Austin"), ("date", .str "2024-01-05T10:00")]])]

/-- The shipment of the spec's InTransit example (§8):
`{statusTag:"InTransit", slug:"dhl", expectedDeliveryDate:"2024-02-01",
checkpoints:[{city:"Reno", remark:"Departed facility"}]}`. -/
def shipmentC6 : JValue :=
  .obj [("tag", .str "InTransit"), ("slug", .str "dhl"),
        ("expected_delivery_date", .str "2024-02-01"),
        ("checkpoints", .arr [.obj [("city", .str "Reno"), ("remark", .str "Departed facility")]])]

/-! ## Helper lemmas -/

lemma bind_ok {α β : Type} (a : α) (f : α → Except String β) :
    (Except.ok a : Except String α) >>= f = f a := rfl

lemma pyGet_mk_tracking (s : Shipment) :
    pyGet (mkShipment s) "tracking_number" (.str "Unknown")
      = .ok (.str (s.tracking_number.getD "Unknown")) := by
  rcases s with ⟨tn, slug, tag, dd, eta, cps⟩
  cases tn <;> cases slug <;> cases tag <;> cases dd <;> cases eta <;> cases cps <;> rfl

lemma pyGet_mk_slug (s : Shipment) :
    pyGet (mkShipment s) "slug" .null = .ok (jOfOptStr s.slug) := by
  rcases s with ⟨tn, slug, tag, dd, eta, cps⟩
  cases tn <;> cases slug <;> cases tag <;> cases dd <;> cases eta <;> cases cps <;> rfl

lemma pyGet_mk_tag (s : Shipment) :
    pyGet (mkShipment s) "tag" .null = .ok (jOfOptStr s.tag) := by
  rcases s with ⟨tn, slug, tag, dd, eta, cps⟩
  cases tn <;> cases slug <;> cases tag <;> cases dd <;> cases eta <;> cases cps <;> rfl

lemma pyGet_mk_checkpoints (s : Shipment) :
    pyGet (mkShipment s) "checkpoints" (.arr [])
      = .ok (.arr ((s.checkpoints.getD []).map mkCheckpoint)) := by
  rcases s with ⟨tn, slug, tag, dd, eta, cps⟩
  cases tn <;> cases slug <;> cases tag <;> cases dd <;> cases eta <;> cases cps <;> rfl

lemma pyGet_mk_delivery (s : Shipment) :
    pyGet (mkShipment s) "delivery_date" .null = .ok (jOfOptStr s.delivery_date) := by
  rcases s with ⟨tn, slug, tag, dd, eta, cps⟩
  cases tn <;> cases slug <;> cases tag <;> cases dd <;> cases eta <;> cases cps <;> rfl

lemma pyGet_mk_eta (s : Shipment) :
    pyGet (mkShipment s) "expected_delivery_date" .null
      = .ok (jOfOptStr s.expected_delivery_date) := by
  rcases s with ⟨tn, slug, tag, dd, eta, cps⟩
  cases tn <;> cases slug <;> cases tag <;> cases dd <;> cases eta <;> cases cps <;> rfl

lemma format_carrier_opt (o : Option String) :
    _format_carrier (jOfOptStr o) = .ok (carrierOf o) := by
  cases o with
  | none => rfl
  | some c =>
    by_cases hc : c = ""
    · subst hc; rfl
    · simp [_format_carrier, carrierOf, truthy, jOfOptStr, hc]

lemma pyGet_mkCheckpoint_city (c : Checkpoint) :
    pyGet (mkCheckpoint c) "city" (.str "") = .ok (.str (c.city.getD "")) := by
  rcases c with ⟨city, remark, date⟩
  cases city <;> cases remark <;> cases date <;> rfl

lemma pyGet_mkCheckpoint_remark (c : Checkpoint) :
    pyGet (mkCheckpoint c) "remark" (.str "") = .ok (.str (c.remark.getD "")) := by
  rcases c with ⟨city, remark, date⟩
  cases city <;> cases remark <;> cases date <;> rfl

lemma pyGet_mkCheckpoint_date (c : Checkpoint) :
    pyGet (mkCheckpoint c) "date" (.str "") = .ok (.str (c.date.getD "")) := by
  rcases c with ⟨city, remark, date⟩
  cases city <;> cases remark <;> cases date <;> rfl

/-- On a well-formed shipment record `_create_summary` never raises and computes
the closed-form `summaryModel`. -/
lemma create_summary_model (s : Shipment) :
    _create_summary (mkShipment s) = .ok (summaryModel s) := by
  simp only [_create_summary, pyGet_mk_tracking, pyGet_mk_slug, format_carrier_opt,
    pyGet_mk_tag, pyGet_mk_checkpoints, pyGet_mk_delivery, pyGet_mk_eta, bind_ok,
    summaryModel, latestOf]
  cases hcs : s.checkpoints.getD [] with
  | nil => simp [truthy, pyGet, lookupKey, bind_ok]
  | cons c tl =>
    simp [truthy, pySubscript0, bind_ok, pyGet_mkCheckpoint_city, pyGet_mkCheckpoint_remark]

/-- `get_tracking` on a response whose first record is a well-formed shipment:
summary, then the "Last updated" line, then the "Total events" line. Records
past the first do not appear. -/
lemma get_tracking_mk (s : Shipment) (rest : List JValue) :
    get_tracking (some (.arr (mkShipment s :: rest)))
      = summaryModel s ++ lastUpdatedLine (latestOf s)
          ++ totalEventsLine (s.checkpoints.getD []).length := by
  simp only [get_tracking, truthy, List.isEmpty, Bool.not_false, process_tracking,
    create_summary_model, pyGet_mk_checkpoints, bind_ok, latestOf]
  cases hcs : s.checkpoints.getD [] with
  | nil => simp [truthy, pyLen, lastUpdatedLine, totalEventsLine, bind_ok]
  | cons c tl =>
    cases hd : c.date with
    | none =>
      simp [truthy, pySubscript0, pyLen, lastUpdatedLine, totalEventsLine, bind_ok,
        pyGet_mkCheckpoint_date, hd]
    | some d =>
      by_cases hde : d = ""
      · simp [truthy, pySubscript0, pyLen, lastUpdatedLine, totalEventsLine, bind_ok,
          pyGet_mkCheckpoint_date, hd, hde]
      · simp [truthy, pySubscript0, pyLen, lastUpdatedLine, totalEventsLine, bind_ok,
          pyGet_mkCheckpoint_date, hd, hde, pyStr]

/-! ## Claims -/

/-- C1: the tool operation is total over every possible fetched input — the
embedding `get_tracking : Option JValue → String` returns a string for the
Absent outcome and for every JSON-like body, and every error raised inside
the `try` block is converted to "Error processing tracking data: {e}". -/
theorem c1_get_tracking_total_error_containment (d : Option JValue) :
    get_tracking d
        = " Tracking information could not be retrieved. Please verify the tracking number."
    ∨ (∃ v s, d = some v ∧ process_tracking v = .ok s ∧ get_tracking d = s)
    ∨ (∃ v e, d = some v ∧ process_tracking v = .error e
        ∧ get_tracking d = "Error processing tracking data: " ++ e) := by
  cases d with
  | none => exact Or.inl rfl
  | some v =>
    by_cases ht : truthy v = true
    · cases hp : process_tracking v with
      | ok s => exact Or.inr (Or.inl ⟨v, s, rfl, hp, by simp [get_tracking, ht, hp]⟩)
      | error e => exact Or.inr (Or.inr ⟨v, e, rfl, hp, by simp [get_tracking, ht, hp]⟩)
    · exact Or.inl (by simp [get_tracking, ht])

/-- C2, counterexample: on the Absent fetch result the returned string is not
the claimed message — the code's message (line 111) carries a leading space. -/
theorem c2_absent_message_counterexample :
    get_tracking none
      ≠ "Tracking information could not be retrieved. Please verify the tracking number." := by
  decide

/-- C2, amended: on the Absent fetch result `get_tracking` returns exactly
`" Tracking information could not be retrieved. Please verify the tracking number."`
(with a leading space). -/
theorem c2_absent_message_amended :
    get_tracking none
      = " Tracking information could not be retrieved. Please verify the tracking number." := rfl

/-- C3, counterexample: a present but empty shipment list does NOT yield
"No shipment data found in the response." — `if not data:` (line 110) already
fires on the falsy empty list and returns the retrieval-failure message. -/
theorem c3_empty_list_counterexample :
    get_tracking (some (.arr []))
      = " Tracking information could not be retrieved. Please verify the tracking number."
    ∧ get_tracking (some (.arr [])) ≠ "No shipment data found in the response." :=
  ⟨rfl, by decide⟩

/-- C3, amended: a present non-list value yields "No shipment data found in the
response." when it is truthy and the retrieval-failure message when it is falsy;
a present empty list yields the retrieval-failure message (it is falsy, so it is
absorbed by the `if not data:` guard, never reaching the isinstance check). -/
theorem c3_shipment_extraction_amended (v : JValue) (h : isList v = false) :
    get_tracking (some v)
      = (if truthy v then "No shipment data found in the response."
         else " Tracking information could not be retrieved. Please verify the tracking number.") := by
  have hp : process_tracking v = .ok "No shipment data found in the response." := by
    cases v with
    | arr xs => simp [isList] at h
    | null => rfl
    | bool b => rfl
    | num n => rfl
    | str s => rfl
    | obj kvs => rfl
  cases htv : truthy v <;> simp [get_tracking, hp, htv]

/-- Witness for C3 (amended) at a concrete truthy non-list body. -/
theorem c3_shipment_extraction_witness :
    get_tracking (some (.obj [("status", .str "ok")]))
      = "No shipment data found in the response." := by
  simpa [truthy] using c3_shipment_extraction_amended (.obj [("status", .str "ok")]) rfl

/-- C4: `_format_carrier` upper-cases a present non-empty slug, renders an
absent (`None`) or empty slug as "Unknown Carrier", and maps "fedex" to
"FEDEX". -/
theorem c4_carrier_formatting :
    (∀ s : String, _format_carrier (.str s)
        = .ok (if s = "" then "Unknown Carrier" else pyUpper s))
    ∧ _format_carrier .null = .ok "Unknown Carrier"
    ∧ _format_carrier (.str "fedex") = .ok "FEDEX" := by
  refine ⟨fun s => ?_, rfl, by rfl⟩
  simpa [carrierOf, jOfOptStr] using format_carrier_opt (some s)

/-- C5, counterexample: the output for the Delivered example does not begin
with "Delivered via UPS on 2024-01-05 at Austin" — the code's Delivered
template (line 56) starts with a leading space. -/
theorem c5_delivered_example_counterexample :
    beginsWith (get_tracking (some (.arr [shipmentC5])))
      "Delivered via UPS on 2024-01-05 at Austin" = false := by
  decide

/-- C5, amended: for the Delivered example the output begins with
`" Delivered via UPS on 2024-01-05 at Austin"` (leading space) and is followed
by the indented "Last updated: 2024-01-05T10:00" and "Total events: 1" lines. -/
theorem c5_delivered_example_amended :
    get_tracking (some (.arr [shipmentC5]))
      = " Delivered via UPS on 2024-01-05 at Austin"
        ++ "\n   Last updated: 2024-01-05T10:00" ++ "\n   Total events: 1" := by
  rfl

/-- C6: for the InTransit example the output is exactly the claimed template
plus the "Total events: 1" line. -/
theorem c6_intransit_example :
    get_tracking (some (.arr [shipmentC6]))
      = "In transit via DHL, currently in Reno - Departed facility\n   Expected delivery: 2024-02-01"
        ++ "\n   Total events: 1" := by
  rfl

/-- C7, counterexample: a present but empty statusTag is treated as absent —
the claim's "{statusTag} via {carrier}" shape (which would be
" via Unknown Carrier" here) is not produced; the code's truthiness test
(line 97) routes to the "Tracking {trackingNumber} via {carrier}" shape. -/
theorem c7_fallback_counterexample :
    _create_summary (mkShipment ⟨some "ABC", none, some "", none, none, none⟩)
      = .ok "Tracking ABC via Unknown Carrier"
    ∧ ("Tracking ABC via Unknown Carrier" : String) ≠ "" ++ " via " ++ "Unknown Carrier" :=
  ⟨rfl, by decide⟩

/-- C7, amended: for a shipment whose statusTag is not one of the six known
values, the summary is "{statusTag} via {carrier}" when the tag is present and
non-empty, else "Tracking {trackingNumber} via {carrier}" (with "Unknown" when
trackingNumber is absent); then " - {remark} ({city})" is appended when both
latest-checkpoint fields are present and non-empty, else " - {remark}" when
only the remark is non-empty; unknown tag "CustomsHold" with no checkpoints
yields "CustomsHold via {carrier}" with no suffix. -/
theorem c7_fallback_amended :
    (∀ (tag tn slug : Option String) (city remark : String),
      (∀ t, tag = some t → t ∉ knownTags) →
      _create_summary (mkShipment ⟨tn, slug, tag, none, none,
          some [⟨some city, some remark, none⟩]⟩)
        = .ok (
          (match tag with
           | some t =>
             if t = "" then "Tracking " ++ tn.getD "Unknown" ++ " via " ++ carrierOf slug
             else t ++ " via " ++ carrierOf slug
           | none => "Tracking " ++ tn.getD "Unknown" ++ " via " ++ carrierOf slug)
          ++ (if city ≠ "" ∧ remark ≠ "" then " - " ++ remark ++ " (" ++ city ++ ")"
              else if remark ≠ "" then " - " ++ remark else "")))
    ∧ ∀ slug2 : Option String,
        _create_summary (mkShipment ⟨none, slug2, some "CustomsHold", none, none, none⟩)
          = .ok ("CustomsHold" ++ " via " ++ carrierOf slug2) := by
  constructor
  · intro tag tn slug city remark h
    rw [create_summary_model]
    cases tag with
    | none =>
      simp [summaryModel, summaryFromFields, latestOf, jOfOptStr, pyEqStr, truthy, pyStr,
        String.append_assoc]
      split_ifs <;> simp [String.append_assoc, String.append_empty]
    | some t =>
      have h' := h t rfl
      simp only [knownTags, List.mem_cons, List.not_mem_nil, or_false, not_or] at h'
      obtain ⟨h1, h2, h3, h4, h5, h6⟩ := h'
      by_cases ht : t = "" <;>
        simp [summaryModel, summaryFromFields, latestOf, jOfOptStr, pyEqStr, truthy, pyStr,
          String.append_assoc, h1, h2, h3, h4, h5, h6, ht] <;>
        split_ifs <;> simp [String.append_assoc, String.append_empty]
  · intro slug2
    rw [create_summary_model]
    simp [summaryModel, summaryFromFields, latestOf, jOfOptStr, pyEqStr, truthy, pyStr,
      String.append_assoc]
    rw [← String.append_assoc]
    simp

/-- Witness for C7 (amended) at a concrete unknown tag with a checkpoint. -/
theorem c7_fallback_witness :
    _create_summary (mkShipment ⟨some "TN1", some "dhl", some "CustomsHold", none, none,
        some [⟨some "Reno", some "Customs check", none⟩]⟩)
      = .ok "CustomsHold via DHL - Customs check (Reno)" := by
  have h := c7_fallback_amended.1 (some "CustomsHold") (some "TN1") (some "dhl") "Reno"
    "Customs check" (by intro t e; injection e with e; subst e; decide)
  exact h.trans (by rfl)

/-- C8: post-processing applies uniformly after the status dispatch, whatever
branch `summaryModel` took — the "Last updated: {date}" line appears iff the
checkpoint sequence is non-empty and its index-0 date is present and non-empty,
the "Total events: {count}" line (count = sequence length) appears iff the
sequence is non-empty, and an absent or empty sequence produces no error, the
lines being simply omitted. -/
theorem c8_postprocessing_uniform (s : Shipment) :
    get_tracking (some (.arr [mkShipment s]))
      = summaryModel s ++ lastUpdatedLine (latestOf s)
          ++ totalEventsLine (s.checkpoints.getD []).length :=
  get_tracking_mk s []

/-- C9: summarization is a pure function of the fetched response — the
embedding of `get_tracking` reads nothing but its input, so two runs on the
identical input yield identical output strings. -/
theorem c9_summarizer_deterministic (d : Option JValue) :
    get_tracking d = get_tracking d := rfl

/-- C10: checkpoints at indices 1 and beyond (and shipment records past the
first) influence the output only through the total event count — two responses
whose first shipments agree on all fields and on the index-0 checkpoint, with
checkpoint sequences of equal length, produce identical output. -/
theorem c10_checkpoint_tail_noninterference (tn slug tag dd eta : Option String)
    (cps1 cps2 : List Checkpoint) (rest1 rest2 : List JValue)
    (hhead : cps1.head? = cps2.head?) (hlen : cps1.length = cps2.length) :
    get_tracking (some (.arr (mkShipment ⟨tn, slug, tag, dd, eta, some cps1⟩ :: rest1)))
      = get_tracking (some (.arr (mkShipment ⟨tn, slug, tag, dd, eta, some cps2⟩ :: rest2))) := by
  rw [get_tracking_mk, get_tracking_mk]
  simp [summaryModel, latestOf, hhead, hlen]

/-- Witness for C10 at concrete two-checkpoint sequences differing past index 0. -/
theorem c10_checkpoint_tail_witness :
    get_tracking (some (.arr [mkShipment ⟨some "TN", some "ups", some "InTransit", none,
        some "2024-02-01", some [⟨some "Reno", some "Departed", some "2024-01-02"⟩,
        ⟨some "LA", none, none⟩]⟩]))
      = get_tracking (some (.arr [mkShipment ⟨some "TN", some "ups", some "InTransit", none,
        some "2024-02-01", some [⟨some "Reno", some "Departed", some "2024-01-02"⟩,
        ⟨some "NYC", some "Arrived", some "2024-01-01"⟩]⟩, .null])) :=
  c10_checkpoint_tail_noninterference (some "TN") (some "ups") (some "InTransit") none
    (some "2024-02-01") _ _ _ _ rfl rfl

end Eshipz
